import Mathlib

/-!
Shallow embedding of the `whispr-linux` push-to-talk dictation utility
(package `whisper_dictate`): the configuration store (`config.py`), the
audio capture buffer (`recorder.py`), the transcription engine adapter
(`transcriber.py`), and the hotkey matcher plus session coordinator
(`app.py`), together with theorems settling the specification claims.

Machine floats are modelled by rationals; the filesystem, the HuggingFace
cache and the two ASR decoders are modelled as oracle parameters; the
on-disk JSON config file is modelled as an optional association list.
-/

namespace WhisperDictate

/-- Association-list lookup keyed on the first component, modelling a Python
`dict` lookup (`d.get(k)` and `d[k]`): the first binding of the key wins. -/
def alistGet {κ α : Type} [DecidableEq κ] (d : List (κ × α)) (k : κ) : Option α :=
  match d with
  | [] => none
  | p :: rest => if p.1 = k then some p.2 else alistGet rest k

/-- Python `d[k] = v`: overwrite the binding in place when the key is present,
otherwise append a new binding. -/
def dictSet {κ α : Type} [DecidableEq κ] (d : List (κ × α)) (k : κ) (v : α) :
    List (κ × α) :=
  if (alistGet d k).isSome then d.map (fun p => if p.1 = k then (k, v) else p)
  else d ++ [(k, v)]

/-- Python `{**a, **b}`: the bindings of `a` overridden by those of `b`. -/
def dictMerge {κ α : Type} [DecidableEq κ] (a b : List (κ × α)) : List (κ × α) :=
  b.foldl (fun acc p => dictSet acc p.1 p.2) a

/-- First-some choice on options (used to state the defaults-merge property). -/
def pyGetOr {α : Type} (a b : Option α) : Option α :=
  match a with
  | some v => some v
  | none => b

/-- Python `a or b` where `a` is `None` or a string: the empty string is
falsy, so it also falls through to `b`. -/
def pyOrStr (a b : Option String) : Option String :=
  match a with
  | some s => if s = "" then b else some s
  | none => b

/-- Python `str.strip()`: drop whitespace from both ends of the string. -/
def pyStrip (s : String) : String :=
  ⟨((s.data.dropWhile Char.isWhitespace).reverse.dropWhile Char.isWhitespace).reverse⟩

/-- One JSON-representable configuration value: the config file of this
application holds strings and booleans. -/
inductive CVal : Type
  | str (s : String)
  | bool (b : Bool)
deriving DecidableEq

/-- Hard-coded `DEFAULT_CONFIG` dict of `config.py`. -/
def DEFAULT_CONFIG : List (String × CVal) :=
  [("model", .str "distil-medium.en"),
   ("compute_type", .str "int8"),
   ("hotkey", .str "f9"),
   ("auto_paste", .bool true),
   ("paste_command", .str "ctrl+shift+v")]

/-- Per-model metadata from the `AVAILABLE_MODELS` dict of `config.py`. -/
structure ModelInfo : Type where
  ram : String
  speed : String
  accuracy : String
  engine : String
deriving DecidableEq

/-- The `AVAILABLE_MODELS` dict of `config.py`. -/
def AVAILABLE_MODELS : List (String × ModelInfo) :=
  [("moonshine-tiny", ⟨"~210MB", "fastest", "~87%", "sherpa"⟩),
   ("moonshine-base", ⟨"~430MB", "very fast", "~92%", "sherpa"⟩),
   ("distil-small.en", ⟨"~300MB", "fast", "87%", "whisper"⟩),
   ("distil-medium.en", ⟨"~500MB", "fast", "88%", "whisper"⟩),
   ("small.en", ⟨"~500MB", "moderate", "92%", "whisper"⟩)]

/-- The `MOONSHINE_MODELS` dict of `transcriber.py`, mapping a Moonshine
model name to its local weight directory name. -/
def MOONSHINE_MODELS : List (String × String) :=
  [("moonshine-tiny", "sherpa-onnx-moonshine-tiny-en-int8"),
   ("moonshine-base", "sherpa-onnx-moonshine-base-en-int8")]

/-- State of the `Config` object together with the on-disk JSON file it
persists to (`none` means the file does not exist). -/
structure ConfigState : Type where
  data : List (String × CVal)
  file : Option (List (String × CVal))
deriving DecidableEq

namespace Config

/-- Model of `Config.save`: rewrite the config file with the in-memory dict. -/
def save (st : ConfigState) : ConfigState := { st with file := some st.data }

/-- Model of `Config.load`: when the file exists, merge its contents over
`DEFAULT_CONFIG` (file keys win); otherwise start from the defaults and save. -/
def load (fileContents : Option (List (String × CVal))) : ConfigState :=
  match fileContents with
  | some fd => { data := dictMerge DEFAULT_CONFIG fd, file := some fd }
  | none => save { data := DEFAULT_CONFIG, file := none }

/-- Model of `Config.get`: Python `dict.get`, `none` when the key is absent. -/
def get (st : ConfigState) (k : String) : Option CVal := alistGet st.data k

/-- Model of `Config.set`: mutate the dict, then save synchronously. -/
def set (st : ConfigState) (k : String) (v : CVal) : ConfigState :=
  save { st with data := dictSet st.data k v }

/-- Model of the `Config.model` property read (`self._data["model"]`),
defined when the key is present and holds a string. -/
def modelGet (st : ConfigState) : Option String :=
  match alistGet st.data "model" with
  | some (.str s) => some s
  | _ => none

end Config

/-- One frame of captured audio: one sample value per channel, float samples
modelled as rationals. -/
abbrev Frame : Type := List ℚ

/-- One chunk delivered by the input-stream callback: a sequence of frames. -/
abbrev Chunk : Type := List Frame

namespace Recorder

/-- Mean of the channel values of one frame: `np.mean(audio, axis=1)` acting
row-wise on a rectangular array. -/
def frameMean (f : Frame) : ℚ := f.sum / (f.length : ℚ)

/-- Model of the artifact-producing tail of `Recorder.stop`: with zero chunks
captured the result is `none` ("no audio"); otherwise the chunks are
concatenated and, when the data is two-channel (the array has `shape[1] == 2`),
downmixed to mono by averaging the channels of each frame. -/
def stopAudio (chunks : List Chunk) : Option (List Frame) :=
  if chunks.isEmpty then none
  else
    let audio := chunks.flatten
    if (audio.headD []).length = 2 then
      some (audio.map (fun f => [frameMean f]))
    else some audio

end Recorder

/-- State of the `Recorder` object: the `recording` flag and the ordered list
of chunks appended by the stream callback. -/
structure RecorderState : Type where
  recording : Bool
  audio_data : List Chunk
deriving DecidableEq

namespace Recorder

/-- Model of `Recorder.start`: reset the buffer and set the flag. -/
def start (_st : RecorderState) : RecorderState :=
  { recording := true, audio_data := [] }

/-- Model of the stream callback: append the chunk only while recording. -/
def callback (st : RecorderState) (c : Chunk) : RecorderState :=
  if st.recording then { st with audio_data := st.audio_data ++ [c] } else st

/-- Model of `Recorder.stop`: clear the flag and return the artifact (or
`none` when no audio was captured). -/
def stop (st : RecorderState) : RecorderState × Option (List Frame) :=
  ({ st with recording := false }, stopAudio st.audio_data)

end Recorder

/-- Keys of the pynput keyboard universe the hotkey matcher distinguishes:
the function keys and named special keys the application knows about, plus
printable character keys. -/
inductive PKey : Type
  | f1 | f2 | f3 | f4 | f5 | f6 | f7 | f8 | f9 | f10 | f11 | f12
  | alt | alt_l | alt_r
  | ctrl | ctrl_l | ctrl_r
  | shift | shift_l | shift_r
  | media_previous | media_next | media_play_pause
  | scroll_lock | pause | insert
  | charK (c : Char)
deriving DecidableEq

/-- Python `str.lower` on a string modelled as its character list. -/
def pyLower (s : List Char) : List Char := s.map Char.toLower

/-- Python `str.isdigit` (the empty string is not a digit string). -/
def pyIsdigit (s : List Char) : Bool := !s.isEmpty && s.all Char.isDigit

/-- Python `config_hotkey.startswith("f")`. -/
def startsWithF (s : List Char) : Bool :=
  match s with
  | c :: _ => c == 'f'
  | [] => false

/-- Model of `getattr(keyboard.Key, config_hotkey, None)` restricted to the
function keys of the modelled key universe. -/
def fkeyAttr : List (List Char × PKey) :=
  [(['f', '1'], .f1), (['f', '2'], .f2), (['f', '3'], .f3), (['f', '4'], .f4),
   (['f', '5'], .f5), (['f', '6'], .f6), (['f', '7'], .f7), (['f', '8'], .f8),
   (['f', '9'], .f9), (['f', '1', '0'], .f10), (['f', '1', '1'], .f11),
   (['f', '1', '2'], .f12)]

/-- The `special_map` dict inside `key_matches_config` (`app.py`). -/
def special_map : List (List Char × PKey) :=
  [(['a', 'l', 't'], .alt),
   (['a', 'l', 't', '_', 'l'], .alt_l),
   (['a', 'l', 't', '_', 'r'], .alt_r),
   (['c', 't', 'r', 'l'], .ctrl),
   (['c', 't', 'r', 'l', '_', 'l'], .ctrl_l),
   (['c', 't', 'r', 'l', '_', 'r'], .ctrl_r),
   (['s', 'h', 'i', 'f', 't'], .shift),
   (['s', 'h', 'i', 'f', 't', '_', 'l'], .shift_l),
   (['s', 'h', 'i', 'f', 't', '_', 'r'], .shift_r),
   (['m', 'e', 'd', 'i', 'a', '_', 'p', 'r', 'e', 'v'], .media_previous),
   (['m', 'e', 'd', 'i', 'a', '_', 'p', 'r', 'e', 'v', 'i', 'o', 'u', 's'], .media_previous),
   (['m', 'e', 'd', 'i', 'a', '_', 'n', 'e', 'x', 't'], .media_next),
   (['m', 'e', 'd', 'i', 'a', '_', 'p', 'l', 'a', 'y'], .media_play_pause),
   (['s', 'c', 'r', 'o', 'l', 'l', '_', 'l', 'o', 'c', 'k'], .scroll_lock),
   (['p', 'a', 'u', 's', 'e'], .pause),
   (['i', 'n', 's', 'e', 'r', 't'], .insert)]

/-- Body of `key_matches_config` after the initial lowering of the configured
hotkey string: the function-key check, the `special_map` check, the
alt-variant rule, the hardware f9/media-previous alias, and the
case-insensitive character check, in source order. -/
def kmcLower (key : PKey) (ch : List Char) : Bool :=
  if (startsWithF ch && pyIsdigit (ch.drop 1)) &&
       (match alistGet fkeyAttr ch with
        | some fkey => key == fkey
        | none => false) then true
  else if (match alistGet special_map ch with
           | some sk => key == sk
           | none => false) then true
  else if decide (ch = ['a', 'l', 't']) &&
            (key == PKey.alt || key == PKey.alt_l || key == PKey.alt_r) then true
  else if decide (ch = ['f', '9']) && key == PKey.media_previous then true
  else
    match key with
    | PKey.charK c => decide ([c.toLower] = ch)
    | _ => false

/-- Model of `key_matches_config` (`app.py`): lower the configured hotkey,
then run the matching rules. -/
def key_matches_config (key : PKey) (config_hotkey : List Char) : Bool :=
  kmcLower key (pyLower config_hotkey)

/-- State of the `Transcriber` object. Engine handles are identified by the
model name they were constructed for; `statusLog` records the `on_status`
messages emitted and `downloadLog` the model downloads performed. -/
structure TranscriberState : Type where
  config : ConfigState
  model : Option String
  sherpaRecognizer : Option String
  currentModelName : Option String
  statusLog : List String
  downloadLog : List String
deriving DecidableEq

/-- Exceptions a load or transcribe call can raise. -/
inductive LoadError : Type
  | valueError (msg : String)
  | fileNotFound (dir : String)
  | keyError
  | attributeError
deriving DecidableEq

/-- Result of a model load: success, or a raised exception; either way the
object state (with the statuses already emitted) is retained. -/
inductive LoadResult : Type
  | ok (st : TranscriberState)
  | err (e : LoadError) (st : TranscriberState)
deriving DecidableEq

/-- True exactly when the load did not raise. -/
def LoadResult.isOk : LoadResult → Bool
  | .ok _ => true
  | .err _ _ => false

/-- The transcriber state after a load, whether or not it raised. -/
def LoadResult.stateOf : LoadResult → TranscriberState
  | .ok st => st
  | .err _ st => st

/-- Result of a transcribe call: the decoded text, or a raised exception. -/
inductive TResult : Type
  | ok (text : String) (st : TranscriberState)
  | err (e : LoadError) (st : TranscriberState)
deriving DecidableEq

/-- The decoded text of a transcribe call, `none` when it raised. -/
def TResult.textOf : TResult → Option String
  | .ok t _ => some t
  | .err _ _ => none

/-- The transcriber state after a transcribe call. -/
def TResult.stateOf : TResult → TranscriberState
  | .ok _ st => st
  | .err _ st => st

/-- The exception raised by a transcribe call, `none` on success. -/
def TResult.errorOf : TResult → Option LoadError
  | .ok _ _ => none
  | .err e _ => some e

/-- Model of `Transcriber._get_engine`: table lookup in `AVAILABLE_MODELS`,
defaulting to `"whisper"`. -/
def getEngine (model_name : String) : String :=
  match alistGet AVAILABLE_MODELS model_name with
  | some info => info.engine
  | none => "whisper"

namespace Transcriber

/-- Model of `Transcriber._update_status`: record the status message. -/
def updateStatus (st : TranscriberState) (msg : String) : TranscriberState :=
  { st with statusLog := st.statusLog ++ [msg] }

/-- Model of `Transcriber._load_moonshine`. `dirExists` is the filesystem
oracle for the local weight directory. The model is never downloaded: a
missing directory raises `FileNotFoundError` after surfacing a status
message. -/
def loadMoonshine (dirExists : String → Bool) (st : TranscriberState)
    (model_name : String) : LoadResult :=
  match alistGet MOONSHINE_MODELS model_name with
  | none => .err (.valueError ("Unknown Moonshine model: " ++ model_name)) st
  | some dir =>
    if dirExists dir then
      let st1 := updateStatus st ("Loading " ++ model_name ++ "...")
      let st2 := { st1 with sherpaRecognizer := some model_name, model := none,
                            currentModelName := some model_name }
      .ok (updateStatus st2 ("Ready (" ++ model_name ++ ")"))
    else
      .err (.fileNotFound dir)
        (updateStatus st ("Model " ++ model_name ++ " not found. Please download it first."))

/-- Model of `Transcriber._load_whisper`. `isDownloaded` is the HuggingFace
cache oracle; when the model is absent the `WhisperModel` constructor
downloads it transparently (recorded in `downloadLog`). -/
def loadWhisper (isDownloaded : String → Bool) (st : TranscriberState)
    (model_name : String) : LoadResult :=
  let st1 :=
    if isDownloaded model_name then updateStatus st ("Loading " ++ model_name ++ "...")
    else updateStatus st ("Downloading " ++ model_name ++ "...")
  let st2 :=
    if isDownloaded model_name then st1
    else { st1 with downloadLog := st1.downloadLog ++ [model_name] }
  let st3 := { st2 with model := some model_name, sherpaRecognizer := none,
                        currentModelName := some model_name }
  .ok (updateStatus st3 ("Ready (" ++ model_name ++ ")"))

/-- Model of `Transcriber.load_model`: a no-op when the requested model is
already current, otherwise dispatch on the engine kind. -/
def load_model (dirExists isDownloaded : String → Bool) (st : TranscriberState)
    (nameArg : Option String) : LoadResult :=
  match pyOrStr nameArg (Config.modelGet st.config) with
  | none => .err .keyError st
  | some model_name =>
    if st.currentModelName = some model_name then .ok st
    else if getEngine model_name = "sherpa" then loadMoonshine dirExists st model_name
    else loadWhisper isDownloaded st model_name

/-- Model of `Transcriber._transcribe_moonshine`: feed the audio to the
loaded sherpa recognizer (the `sherpaDecode` oracle) and strip the result. -/
def transcribeMoonshine (sherpaDecode : String → String → String)
    (st : TranscriberState) (audioPath : String) : TResult :=
  let mname := st.currentModelName.getD "None"
  let st1 := updateStatus st ("Transcribing with " ++ mname ++ "...")
  match st1.sherpaRecognizer with
  | none => .err .attributeError st1
  | some m => .ok (pyStrip (sherpaDecode m audioPath)) st1

/-- Model of `Transcriber._transcribe_whisper`: decode with the loaded
whisper model (the `whisperDecode` oracle, giving the concatenated segment
texts) and strip the result. -/
def transcribeWhisper (whisperDecode : String → String → String)
    (st : TranscriberState) (audioPath : String) : TResult :=
  let mname := st.currentModelName.getD "None"
  let st1 := updateStatus st ("Transcribing with " ++ mname ++ "...")
  match st1.model with
  | none => .err .attributeError st1
  | some m => .ok (pyStrip (whisperDecode m audioPath)) st1

/-- Model of `Transcriber.transcribe`: compute the effective model name,
lazily load when no engine handle is live, then dispatch on the engine. -/
def transcribe (dirExists isDownloaded : String → Bool)
    (whisperDecode sherpaDecode : String → String → String)
    (st : TranscriberState) (audioPath : String) : TResult :=
  match pyOrStr st.currentModelName (Config.modelGet st.config) with
  | none => .err .keyError st
  | some model_name =>
    let loaded :=
      if st.model.isNone && st.sherpaRecognizer.isNone then
        load_model dirExists isDownloaded st none
      else .ok st
    match loaded with
    | .err e st1 => .err e st1
    | .ok st1 =>
      if getEngine model_name = "sherpa" then transcribeMoonshine sherpaDecode st1 audioPath
      else transcribeWhisper whisperDecode st1 audioPath

/-- Model of `Transcriber.switch_model`: persist the new model name to the
config (which saves the file synchronously), then clear both engine handles
and the current-model name. No load happens here. -/
def switch_model (st : TranscriberState) (model_name : String) : TranscriberState :=
  { st with config := Config.set st.config "model" (.str model_name),
            model := none, sherpaRecognizer := none, currentModelName := none }

/-- Model of the `Transcriber.current_model` property. -/
def current_model (st : TranscriberState) : Option String := st.currentModelName

end Transcriber

/-- Status line of the tray menu, abstracted to the three phases the
coordinator displays. -/
inductive AppStatus : Type
  | ready
  | recording
  | transcribing
deriving DecidableEq

/-- State of the session coordinator (`WhisperDictateApp`): the recorder, a
flag for an in-flight transcription worker, and the status line. -/
structure AppState : Type where
  recorder : RecorderState
  transcribing : Bool
  status : AppStatus
deriving DecidableEq

/-- External events the coordinator reacts to: a hotkey press, an audio chunk
delivered by the stream callback, a hotkey release, and completion or failure
of the transcription worker. -/
inductive Ev : Type
  | press
  | chunk (c : Chunk)
  | release
  | doneEv (text : String)
  | errEv (msg : String)

namespace App

/-- One step of the session coordinator, mirroring `on_press`/`on_release` of
`_setup_hotkey` and the worker-completion handlers of `app.py`. The press
guard is exactly `not self.recorder.is_recording`; the release guard is
`self.recorder.is_recording`; a release with no captured audio returns to
ready without spawning a worker. -/
def step (s : AppState) (e : Ev) : AppState :=
  match e with
  | .press =>
      if s.recorder.recording then s
      else { s with recorder := Recorder.start s.recorder, status := .recording }
  | .chunk c => { s with recorder := Recorder.callback s.recorder c }
  | .release =>
      if s.recorder.recording then
        match Recorder.stop s.recorder with
        | (rec1, none) => { s with recorder := rec1, status := .ready }
        | (rec1, some _) =>
            { s with recorder := rec1, transcribing := true, status := .transcribing }
      else s
  | .doneEv _ => { s with transcribing := false, status := .ready }
  | .errEv _ => { s with transcribing := false, status := .ready }

/-- Initial coordinator state: idle, empty buffer, ready status. -/
def init : AppState :=
  { recorder := { recording := false, audio_data := [] }, transcribing := false,
    status := .ready }

/-- Run the coordinator over a sequence of events from the initial state. -/
def run (evs : List Ev) : AppState := evs.foldl step init

/-- Observable effects of the transcription-done handler: final status, the
system clipboard content, the texts piped to `xclip`, and the texts typed by
`xdotool`. -/
structure DoneEffects : Type where
  status : AppStatus
  clipboard : String
  xclipWrites : List String
  typed : List String
deriving DecidableEq

/-- Model of `WhisperDictateApp._on_transcription_done`: reset the status
text, then — only for non-empty text — copy to the clipboard and, when
auto-paste is enabled, pipe to `xclip` and type via `xdotool`. -/
def onTranscriptionDone (auto_paste : Bool) (clip0 : String) (text : String) :
    DoneEffects :=
  if text = "" then
    { status := .ready, clipboard := clip0, xclipWrites := [], typed := [] }
  else if auto_paste then
    { status := .ready, clipboard := text, xclipWrites := [text], typed := [text] }
  else
    { status := .ready, clipboard := text, xclipWrites := [], typed := [] }

end App

/-- Example transcriber state whose whisper model `small.en` is fully loaded,
with the config file present on disk; used to exercise the model-switch path
on concrete inputs. -/
def T0 : TranscriberState :=
  { config := Config.load (some [("model", CVal.str "small.en")]),
    model := some "small.en", sherpaRecognizer := none,
    currentModelName := some "small.en", statusLog := [], downloadLog := [] }

/-! ## Helper lemmas about the dictionary operations -/

theorem alistGet_eq_none_of_not_mem {κ α : Type} [DecidableEq κ]
    (d : List (κ × α)) (k : κ) (h : k ∉ d.map Prod.fst) : alistGet d k = none := by
  induction d with
  | nil => rfl
  | cons p rest ih =>
    simp only [List.map_cons, List.mem_cons] at h
    push_neg at h
    simp [alistGet, Ne.symm h.1, ih h.2]

theorem alistGet_map_set {κ α : Type} [DecidableEq κ] (d : List (κ × α)) (k : κ) (v : α)
    (h : (alistGet d k).isSome = true) :
    alistGet (d.map (fun p => if p.1 = k then (k, v) else p)) k = some v := by
  induction d with
  | nil => simp [alistGet] at h
  | cons p rest ih =>
    by_cases hp : p.1 = k
    · simp [alistGet, hp]
    · simp only [alistGet, hp, if_false] at h
      simp [alistGet, hp, ih h]

theorem alistGet_append_set {κ α : Type} [DecidableEq κ] (d : List (κ × α)) (k : κ) (v : α)
    (h : alistGet d k = none) :
    alistGet (d ++ [(k, v)]) k = some v := by
  induction d with
  | nil => simp [alistGet]
  | cons p rest ih =>
    by_cases hp : p.1 = k
    · simp [alistGet, hp] at h
    · simp only [alistGet, hp, if_false] at h
      simp [alistGet, hp, ih h]

theorem alistGet_dictSet_self {κ α : Type} [DecidableEq κ] (d : List (κ × α)) (k : κ) (v : α) :
    alistGet (dictSet d k v) k = some v := by
  unfold dictSet
  by_cases h : (alistGet d k).isSome
  · rw [if_pos h]
    exact alistGet_map_set d k v h
  · rw [if_neg h]
    exact alistGet_append_set d k v (Option.not_isSome_iff_eq_none.mp h)

theorem alistGet_map_ne {κ α : Type} [DecidableEq κ] (d : List (κ × α)) (k k2 : κ) (v : α)
    (hne : k2 ≠ k) :
    alistGet (d.map (fun p => if p.1 = k then (k, v) else p)) k2 = alistGet d k2 := by
  induction d with
  | nil => rfl
  | cons p rest ih =>
    by_cases hp : p.1 = k
    · simp [alistGet, hp, Ne.symm hne, ih]
    · simp [alistGet, hp, ih]

theorem alistGet_append_ne {κ α : Type} [DecidableEq κ] (d : List (κ × α)) (k k2 : κ) (v : α)
    (hne : k2 ≠ k) :
    alistGet (d ++ [(k, v)]) k2 = alistGet d k2 := by
  induction d with
  | nil => simp [alistGet, Ne.symm hne]
  | cons p rest ih =>
    by_cases hp : p.1 = k2 <;> simp [alistGet, hp, ih]

theorem alistGet_dictSet_ne {κ α : Type} [DecidableEq κ] (d : List (κ × α)) (k k2 : κ) (v : α)
    (hne : k2 ≠ k) :
    alistGet (dictSet d k v) k2 = alistGet d k2 := by
  unfold dictSet
  by_cases h : (alistGet d k).isSome
  · rw [if_pos h]
    exact alistGet_map_ne d k k2 v hne
  · rw [if_neg h]
    exact alistGet_append_ne d k k2 v hne

theorem alistGet_dictMerge {κ α : Type} [DecidableEq κ] (b a : List (κ × α)) (k : κ)
    (hb : (b.map Prod.fst).Nodup) :
    alistGet (dictMerge a b) k = pyGetOr (alistGet b k) (alistGet a k) := by
  induction b generalizing a with
  | nil => simp [dictMerge, alistGet, pyGetOr]
  | cons p rest ih =>
    have hnotin : p.1 ∉ rest.map Prod.fst := by
      have h2 := hb
      simp only [List.map_cons, List.nodup_cons] at h2
      exact h2.1
    have hrest : (rest.map Prod.fst).Nodup := by
      have h2 := hb
      simp only [List.map_cons, List.nodup_cons] at h2
      exact h2.2
    have hstep : dictMerge a (p :: rest) = dictMerge (dictSet a p.1 p.2) rest := rfl
    rw [hstep, ih (dictSet a p.1 p.2) hrest]
    by_cases hk : p.1 = k
    · subst hk
      have h0 : alistGet rest p.1 = none := alistGet_eq_none_of_not_mem rest p.1 hnotin
      simp [alistGet, h0, pyGetOr, alistGet_dictSet_self]
    · simp [alistGet, hk, pyGetOr, alistGet_dictSet_ne a p.1 k p.2 (Ne.symm hk)]

theorem getEngine_whisper_or_sherpa (name : String) :
    getEngine name = "whisper" ∨ getEngine name = "sherpa" := by
  by_cases h1 : name = "moonshine-tiny"
  · subst h1; exact Or.inr (by decide)
  by_cases h2 : name = "moonshine-base"
  · subst h2; exact Or.inr (by decide)
  by_cases h3 : name = "distil-small.en"
  · subst h3; exact Or.inl (by decide)
  by_cases h4 : name = "distil-medium.en"
  · subst h4; exact Or.inl (by decide)
  by_cases h5 : name = "small.en"
  · subst h5; exact Or.inl (by decide)
  · left
    simp [getEngine, AVAILABLE_MODELS, alistGet, Ne.symm h1, Ne.symm h2, Ne.symm h3,
      Ne.symm h4, Ne.symm h5]

theorem sherpa_name_cases (name : String) (h : getEngine name = "sherpa") :
    name = "moonshine-tiny" ∨ name = "moonshine-base" := by
  by_cases h1 : name = "moonshine-tiny"
  · exact Or.inl h1
  by_cases h2 : name = "moonshine-base"
  · exact Or.inr h2
  exfalso
  by_cases h3 : name = "distil-small.en"
  · subst h3; exact absurd h (by decide)
  by_cases h4 : name = "distil-medium.en"
  · subst h4; exact absurd h (by decide)
  by_cases h5 : name = "small.en"
  · subst h5; exact absurd h (by decide)
  · have hw : getEngine name = "whisper" := by
      simp [getEngine, AVAILABLE_MODELS, alistGet, Ne.symm h1, Ne.symm h2, Ne.symm h3,
        Ne.symm h4, Ne.symm h5]
    rw [hw] at h
    exact absurd h (by decide)

theorem modelGet_set (c : ConfigState) (n : String) :
    Config.modelGet (Config.set c "model" (CVal.str n)) = some n := by
  unfold Config.modelGet Config.set Config.save
  simp [alistGet_dictSet_self]

theorem kmcLower_charK (c x : Char) :
    kmcLower (PKey.charK c) [x] = decide ([c.toLower] = [x]) := by
  simp [kmcLower, pyIsdigit, startsWithF, alistGet, fkeyAttr, special_map]

/-! ## Claim theorems -/

/-- C1 (counterexample): the coordinator does not enter Recording only from
Idle. After press–chunk–release the session is Transcribing (worker in
flight, recorder stopped), yet a further hotkey press starts a new recording,
because the guard in `on_press` checks only `recorder.is_recording`. -/
theorem C1_counterexample :
    (App.run [Ev.press, Ev.chunk [[0, 0]], Ev.release]).transcribing = true ∧
    (App.run [Ev.press, Ev.chunk [[0, 0]], Ev.release]).recorder.recording = false ∧
    (App.step (App.run [Ev.press, Ev.chunk [[0, 0]], Ev.release])
        Ev.press).recorder.recording = true :=
  ⟨rfl, rfl, rfl⟩

/-- C1 (amended): a hotkey press observed while the recorder is already
Recording is ignored (the guard is `not self.recorder.is_recording`); a press
observed while Transcribing, when the recorder flag is already clear, does
start a new recording. -/
theorem C1_amended_thm (s : AppState) (h : s.recorder.recording = true) :
    App.step s Ev.press = s := by
  simp [App.step, h]

/-- C1 witness: the amended guard theorem at a concrete reachable state. -/
theorem C1_witness :
    App.step (App.run [Ev.press]) Ev.press = App.run [Ev.press] :=
  C1_amended_thm (App.run [Ev.press]) rfl

/-- C2 (counterexample): a transcribe call issued right after a model switch,
before any load of the new model, does not fail with a not-ready condition:
it lazily loads the newly configured model inside the call and succeeds. The
decode oracle returns the name of the model it was invoked with, so the
result text `"distil-small.en"` also shows the new weights were used (the
previously loaded model was `"small.en"`). -/
theorem C2_counterexample :
    (Transcriber.transcribe (fun _ => true) (fun _ => true)
        (fun m _ => m) (fun m _ => m)
        (Transcriber.switch_model T0 "distil-small.en") "audio.wav").textOf =
      some "distil-small.en" := by
  decide

/-- C2 (amended): a transcribe call issued after `switch_model`, before the
asynchronous load of the new model, does not fail fast with a not-ready
condition; it synchronously attempts the load of the newly configured model
inside the call. Every model name falls under one of the two engines: for a
whisper-engine target the load always succeeds and the call returns text
decoded with the new model's weights; for a Moonshine target the call returns
text decoded with the new model's weights when the local weight directory
exists and raises that load's `FileNotFoundError` (producing no text) when it
is absent. In no case does it produce a result using the previously loaded
model's weights. -/
theorem C2_amended_thm (dirExists isDownloaded : String → Bool)
    (whisperDecode sherpaDecode : String → String → String)
    (st : TranscriberState) (name audioPath : String) :
    (getEngine name = "whisper" ∨ getEngine name = "sherpa") ∧
    (getEngine name = "whisper" →
      (Transcriber.transcribe dirExists isDownloaded whisperDecode sherpaDecode
          (Transcriber.switch_model st name) audioPath).textOf =
        some (pyStrip (whisperDecode name audioPath))) ∧
    (getEngine name = "sherpa" →
      ∃ dir, alistGet MOONSHINE_MODELS name = some dir ∧
        (dirExists dir = true →
          (Transcriber.transcribe dirExists isDownloaded whisperDecode sherpaDecode
              (Transcriber.switch_model st name) audioPath).textOf =
            some (pyStrip (sherpaDecode name audioPath))) ∧
        (dirExists dir = false →
          (Transcriber.transcribe dirExists isDownloaded whisperDecode sherpaDecode
              (Transcriber.switch_model st name) audioPath).errorOf =
            some (LoadError.fileNotFound dir))) := by
  refine ⟨getEngine_whisper_or_sherpa name, ?_, ?_⟩
  · intro heng
    have hws : ¬(("whisper" : String) = "sherpa") := by decide
    by_cases hdl : isDownloaded name <;>
      simp [Transcriber.transcribe, Transcriber.switch_model, Transcriber.load_model,
        Transcriber.loadWhisper, Transcriber.transcribeWhisper, Transcriber.updateStatus,
        pyOrStr, modelGet_set, heng, hws, hdl, TResult.textOf]
  · intro hsh
    rcases sherpa_name_cases name hsh with h | h
    · subst h
      have hengc : getEngine "moonshine-tiny" = "sherpa" := by decide
      refine ⟨"sherpa-onnx-moonshine-tiny-en-int8", rfl, ?_, ?_⟩ <;> intro hfs <;>
        simp [Transcriber.transcribe, Transcriber.switch_model, Transcriber.load_model,
          Transcriber.loadMoonshine, Transcriber.transcribeMoonshine,
          Transcriber.updateStatus, pyOrStr, modelGet_set, hengc, hfs,
          TResult.textOf, TResult.errorOf, MOONSHINE_MODELS, alistGet]
    · subst h
      have hengc : getEngine "moonshine-base" = "sherpa" := by decide
      refine ⟨"sherpa-onnx-moonshine-base-en-int8", rfl, ?_, ?_⟩ <;> intro hfs <;>
        simp [Transcriber.transcribe, Transcriber.switch_model, Transcriber.load_model,
          Transcriber.loadMoonshine, Transcriber.transcribeMoonshine,
          Transcriber.updateStatus, pyOrStr, modelGet_set, hengc, hfs,
          TResult.textOf, TResult.errorOf, MOONSHINE_MODELS, alistGet]

/-- C2 witness: the amended theorem at concrete inputs, exercising both the
whisper success branch and the Moonshine weights-absent failure branch. -/
theorem C2_witness :
    (Transcriber.transcribe (fun _ => true) (fun _ => true)
        (fun m _ => m) (fun m _ => m)
        (Transcriber.switch_model T0 "distil-medium.en") "a.wav").textOf =
      some (pyStrip "distil-medium.en") ∧
    (Transcriber.transcribe (fun _ => false) (fun _ => true)
        (fun m _ => m) (fun m _ => m)
        (Transcriber.switch_model T0 "moonshine-tiny") "a.wav").errorOf =
      some (LoadError.fileNotFound "sherpa-onnx-moonshine-tiny-en-int8") := by
  constructor
  · exact (C2_amended_thm (fun _ => true) (fun _ => true) (fun m _ => m) (fun m _ => m)
      T0 "distil-medium.en" "a.wav").2.1 rfl
  · obtain ⟨dir, hdir, _, hfail⟩ :=
      (C2_amended_thm (fun _ => false) (fun _ => true) (fun m _ => m) (fun m _ => m)
        T0 "moonshine-tiny" "a.wav").2.2 (by decide)
    have hd : ("sherpa-onnx-moonshine-tiny-en-int8" : String) = dir := by
      simpa [MOONSHINE_MODELS, alistGet] using hdir
    subst hd
    exact hfail rfl

/-- C3: when zero audio chunks were appended, stopping the recorder yields
the null "no audio" result (not an error, not an empty artifact), and the
coordinator's release handler spawns no transcription worker and returns the
status to ready, leaving everything else unchanged. -/
theorem C3_thm (s : AppState) (hrec : s.recorder.recording = true)
    (hempty : s.recorder.audio_data = []) :
    Recorder.stopAudio s.recorder.audio_data = none ∧
    App.step s Ev.release =
      { s with recorder := { s.recorder with recording := false },
               status := AppStatus.ready } := by
  constructor
  · rw [hempty]; rfl
  · simp [App.step, hrec, Recorder.stop, hempty, Recorder.stopAudio]

/-- C3 witness: the empty-capture theorem at the concrete state reached by a
single press. -/
theorem C3_witness :
    Recorder.stopAudio (App.run [Ev.press]).recorder.audio_data = none ∧
    App.step (App.run [Ev.press]) Ev.release =
      { App.run [Ev.press] with
          recorder := { (App.run [Ev.press]).recorder with recording := false },
          status := AppStatus.ready } :=
  C3_thm (App.run [Ev.press]) rfl rfl

/-- C4: for every non-empty two-channel capture, stopping the recorder
downmixes to mono by averaging the channel values of each frame; in
particular when every frame is `[+1, -1]` every output sample is exactly 0. -/
theorem C4_thm (chunks : List Chunk) (hne : chunks ≠ [])
    (hwidth : ∀ f ∈ chunks.flatten, f.length = 2) :
    Recorder.stopAudio chunks =
      some (chunks.flatten.map (fun f => [Recorder.frameMean f])) ∧
    ((∀ f ∈ chunks.flatten, f = [(1 : ℚ), -1]) →
      ∀ g ∈ chunks.flatten.map (fun f => [Recorder.frameMean f]), g = [(0 : ℚ)]) := by
  constructor
  · cases hch : chunks with
    | nil => exact absurd hch hne
    | cons c cs =>
      rw [← hch]
      unfold Recorder.stopAudio
      rw [if_neg (by simp [hch])]
      cases haudio : chunks.flatten with
      | nil => simp [haudio]
      | cons f rest =>
        have hf : f.length = 2 := hwidth f (by rw [haudio]; exact List.mem_cons_self f rest)
        simp [haudio, hf]
  · intro hall g hg
    rcases List.mem_map.mp hg with ⟨f, hfmem, rfl⟩
    have hf1 : f = [(1 : ℚ), -1] := hall f hfmem
    subst hf1
    norm_num [Recorder.frameMean]

/-- C4 witness: the downmix theorem at a concrete two-frame stereo capture. -/
theorem C4_witness :
    Recorder.stopAudio [[[(1 : ℚ), -1], [1, -1]]] =
      some ((([[[(1 : ℚ), -1], [1, -1]]] : List Chunk).flatten).map
        (fun f => [Recorder.frameMean f])) ∧
    ∀ g ∈ (([[[(1 : ℚ), -1], [1, -1]]] : List Chunk).flatten).map
        (fun f => [Recorder.frameMean f]), g = [(0 : ℚ)] :=
  ⟨(C4_thm [[[(1 : ℚ), -1], [1, -1]]] (by decide) (by decide)).1,
   (C4_thm [[[(1 : ℚ), -1], [1, -1]]] (by decide) (by decide)).2 (by decide)⟩

/-- C5 (counterexample): the generic modifier rule does not hold for
`"ctrl"` — a left-control key event does not match the configured spec
`"ctrl"` (only `"alt"` has the left/right variant rule in the source). -/
theorem C5_counterexample :
    key_matches_config PKey.ctrl_l ['c', 't', 'r', 'l'] = false := by
  decide

/-- C5 (amended): the spec `"alt"` matches any of the alt variants, the
hardware alias holds (an `"f9"` spec matches the media-previous key), and
printable characters match case-insensitively; but the specs `"ctrl"` and
`"shift"` match only the generic key, not their left/right physical
variants. -/
theorem C5_amended_thm :
    (∀ k : PKey, (k = PKey.alt ∨ k = PKey.alt_l ∨ k = PKey.alt_r) →
        key_matches_config k ['a', 'l', 't'] = true) ∧
    key_matches_config PKey.media_previous ['f', '9'] = true ∧
    key_matches_config PKey.ctrl_l ['c', 't', 'r', 'l'] = false ∧
    key_matches_config PKey.ctrl_r ['c', 't', 'r', 'l'] = false ∧
    key_matches_config PKey.shift_l ['s', 'h', 'i', 'f', 't'] = false ∧
    key_matches_config PKey.shift_r ['s', 'h', 'i', 'f', 't'] = false ∧
    (∀ (c : Char) (spec : List Char), pyLower spec = [c.toLower] →
        key_matches_config (PKey.charK c) spec = true) := by
  refine ⟨?_, by decide, by decide, by decide, by decide, by decide, ?_⟩
  · rintro k (rfl | rfl | rfl) <;> decide
  · intro c spec h
    unfold key_matches_config
    rw [h, kmcLower_charK]
    simp

/-- C5 witness: the amended matcher theorem at concrete keys (a right-alt
event against the `"alt"` spec, and an uppercase character against its
lowercase spec). -/
theorem C5_witness :
    key_matches_config PKey.alt_r ['a', 'l', 't'] = true ∧
    key_matches_config (PKey.charK 'A') ['a'] = true :=
  ⟨C5_amended_thm.1 PKey.alt_r (Or.inr (Or.inr rfl)),
   C5_amended_thm.2.2.2.2.2.2 'A' ['a'] (by decide)⟩

/-- C6: when the transcription completes with empty text, the done handler
leaves the clipboard unchanged, pipes nothing to xclip, types nothing, and
returns the status to ready; the clipboard receives the text only when it is
non-empty. -/
theorem C6_thm (auto_paste : Bool) (clip0 : String) :
    App.onTranscriptionDone auto_paste clip0 "" =
      { status := AppStatus.ready, clipboard := clip0, xclipWrites := [], typed := [] } ∧
    ∀ t : String, t ≠ "" → (App.onTranscriptionDone auto_paste clip0 t).clipboard = t := by
  constructor
  · rfl
  · intro t ht
    by_cases hap : auto_paste <;> simp [App.onTranscriptionDone, ht, hap]

/-- C6 witness: the empty-text theorem at concrete inputs. -/
theorem C6_witness :
    App.onTranscriptionDone true "before" "" =
      { status := AppStatus.ready, clipboard := "before", xclipWrites := [], typed := [] } ∧
    (App.onTranscriptionDone true "before" "hello world").clipboard = "hello world" :=
  ⟨(C6_thm true "before").1, (C6_thm true "before").2 "hello world" (by decide)⟩

/-- C7: after `switch_model` with a new name, `current_model` is null, and
when the subsequent load (which reads the newly persisted config model)
completes successfully, `current_model` equals the new name. -/
theorem C7_thm (dirExists isDownloaded : String → Bool) (st : TranscriberState)
    (name : String) :
    Transcriber.current_model (Transcriber.switch_model st name) = none ∧
    ((Transcriber.load_model dirExists isDownloaded
        (Transcriber.switch_model st name) none).isOk = true →
      Transcriber.current_model
          (Transcriber.load_model dirExists isDownloaded
            (Transcriber.switch_model st name) none).stateOf = some name) := by
  constructor
  · rfl
  · intro hok
    have hmg : pyOrStr (none : Option String)
        (Config.modelGet (Config.set st.config "model" (CVal.str name))) = some name := by
      simp [pyOrStr, modelGet_set]
    by_cases hsh : getEngine name = "sherpa"
    · cases hmm : alistGet MOONSHINE_MODELS name with
      | none =>
        simp [Transcriber.load_model, hmg, Transcriber.switch_model, hsh,
          Transcriber.loadMoonshine, hmm, LoadResult.isOk] at hok
      | some dir =>
        by_cases hfs : dirExists dir
        · simp [Transcriber.load_model, hmg, Transcriber.switch_model, hsh,
            Transcriber.loadMoonshine, hmm, hfs, Transcriber.updateStatus,
            LoadResult.stateOf, Transcriber.current_model]
        · simp [Transcriber.load_model, hmg, Transcriber.switch_model, hsh,
            Transcriber.loadMoonshine, hmm, hfs, LoadResult.isOk] at hok
    · by_cases hdl : isDownloaded name <;>
        simp [Transcriber.load_model, hmg, Transcriber.switch_model, hsh,
          Transcriber.loadWhisper, hdl, Transcriber.updateStatus,
          LoadResult.stateOf, Transcriber.current_model]

/-- C7 witness: the switch-then-load theorem at concrete inputs (whisper
target, everything cached). -/
theorem C7_witness :
    Transcriber.current_model (Transcriber.switch_model T0 "distil-medium.en") = none ∧
    Transcriber.current_model
        (Transcriber.load_model (fun _ => true) (fun _ => true)
          (Transcriber.switch_model T0 "distil-medium.en") none).stateOf =
      some "distil-medium.en" :=
  ⟨(C7_thm (fun _ => true) (fun _ => true) T0 "distil-medium.en").1,
   (C7_thm (fun _ => true) (fun _ => true) T0 "distil-medium.en").2 (by decide)⟩

/-- C8: the settings loaded from a config file are the hard-coded defaults
overridden by the file's keys — a key present in the file takes the file's
value and any other key its default, lookup totally returning an option —
and every `set` rewrites the file synchronously with the updated dict. -/
theorem C8_thm (fd : List (String × CVal)) (hnd : (fd.map Prod.fst).Nodup) :
    (∀ k, Config.get (Config.load (some fd)) k =
        pyGetOr (alistGet fd k) (alistGet DEFAULT_CONFIG k)) ∧
    (∀ (st : ConfigState) (k : String) (v : CVal),
        (Config.set st k v).file = some ((Config.set st k v).data) ∧
        (Config.set st k v).data = dictSet st.data k v) := by
  constructor
  · intro k
    unfold Config.get Config.load
    exact alistGet_dictMerge fd DEFAULT_CONFIG k hnd
  · intro st k v
    exact ⟨rfl, rfl⟩

/-- C8 witness: the defaults-merge theorem at a concrete one-key file — the
missing `"hotkey"` key falls back to its default value. -/
theorem C8_witness :
    Config.get (Config.load (some [("model", CVal.str "small.en")])) "hotkey" =
      pyGetOr (alistGet [("model", CVal.str "small.en")] "hotkey")
        (alistGet DEFAULT_CONFIG "hotkey") ∧
    Config.get (Config.load (some [("model", CVal.str "small.en")])) "hotkey" =
      some (CVal.str "f9") := by
  have h := (C8_thm [("model", CVal.str "small.en")] (by decide)).1 "hotkey"
  exact ⟨h, by rw [h]; rfl⟩

/-- C9: for a known Moonshine model name, the lightweight load fails with
`FileNotFoundError` exactly when the local weight directory is absent,
surfacing a status message before raising; when the directory exists the
load succeeds; and in every case no download is performed. -/
theorem C9_thm (dirExists : String → Bool) (st : TranscriberState) (name dir : String)
    (hname : alistGet MOONSHINE_MODELS name = some dir) :
    (dirExists dir = false →
      Transcriber.loadMoonshine dirExists st name =
        LoadResult.err (LoadError.fileNotFound dir)
          (Transcriber.updateStatus st
            ("Model " ++ name ++ " not found. Please download it first."))) ∧
    (dirExists dir = true →
      (Transcriber.loadMoonshine dirExists st name).isOk = true ∧
      Transcriber.current_model (Transcriber.loadMoonshine dirExists st name).stateOf =
        some name) ∧
    (Transcriber.loadMoonshine dirExists st name).stateOf.downloadLog = st.downloadLog := by
  refine ⟨?_, ?_, ?_⟩
  · intro hfs
    simp [Transcriber.loadMoonshine, hname, hfs]
  · intro hfs
    simp [Transcriber.loadMoonshine, hname, hfs, LoadResult.isOk, LoadResult.stateOf,
      Transcriber.updateStatus, Transcriber.current_model]
  · cases hfs : dirExists dir <;>
      simp [Transcriber.loadMoonshine, hname, hfs, LoadResult.stateOf,
        Transcriber.updateStatus]

/-- C9 witness: the model-missing theorem at a concrete absent directory. -/
theorem C9_witness :
    Transcriber.loadMoonshine (fun _ => false) T0 "moonshine-tiny" =
      LoadResult.err (LoadError.fileNotFound "sherpa-onnx-moonshine-tiny-en-int8")
        (Transcriber.updateStatus T0
          ("Model " ++ "moonshine-tiny" ++ " not found. Please download it first.")) :=
  (C9_thm (fun _ => false) T0 "moonshine-tiny" "sherpa-onnx-moonshine-tiny-en-int8"
    rfl).1 rfl

/-- C10: `switch_model` synchronously persists the new model name — the
config file on disk ends up holding the updated dict, whose `"model"` key is
the new name — and clears both engine handles and the current-model name,
while performing no load (no status and no download activity). -/
theorem C10_thm (st : TranscriberState) (name : String) :
    (Transcriber.switch_model st name).config.file =
      some (dictSet st.config.data "model" (CVal.str name)) ∧
    alistGet ((Transcriber.switch_model st name).config.file.getD []) "model" =
      some (CVal.str name) ∧
    (Transcriber.switch_model st name).model = none ∧
    (Transcriber.switch_model st name).sherpaRecognizer = none ∧
    (Transcriber.switch_model st name).currentModelName = none ∧
    (Transcriber.switch_model st name).statusLog = st.statusLog ∧
    (Transcriber.switch_model st name).downloadLog = st.downloadLog := by
  refine ⟨rfl, ?_, rfl, rfl, rfl, rfl, rfl⟩
  exact alistGet_dictSet_self st.config.data "model" (CVal.str name)

end WhisperDictate
